import Mathlib

/-!
Verification of the SLM-Lab data-visualization module (slm_lab/lib/viz.py).

The module builds chart-configuration values for a plotting engine and writes
image files. The embedding below translates each function of viz.py into a
Lean definition: pure helpers become pure functions, the module-level
"warn once" flag and the written files become an explicit state record that
save_image threads, and external collaborators (the colorlover palette data,
the plotting engine, util.calc_srs_mean_std, util.smart_path) are modelled at
the interface the module uses.

Numeric series are modelled as lists of rationals; the Python values are
floats, but none of the verified properties depends on rounding, only on the
exact arithmetic the module itself performs (pointwise + and -).
-/

/-! ### Python string primitives used by the module -/

/-- One pass of Python "str.replace": scan left to right, replace each
non-overlapping occurrence of the pattern `p :: ps`. `fuel` bounds the
recursion; it is instantiated with the length of the scanned list, which
always suffices because each step consumes at least one character. -/
def pyReplaceAux (p : Char) (ps rep : List Char) : Nat → List Char → List Char
  | 0, rest => rest
  | _ + 1, [] => []
  | fuel + 1, c :: cs =>
    if c = p ∧ cs.take ps.length = ps then
      rep ++ pyReplaceAux p ps rep fuel (cs.drop ps.length)
    else
      c :: pyReplaceAux p ps rep fuel cs

/-- Python "s.replace(pat, rep)": replace every non-overlapping occurrence of
`pat` in `s` by `rep`, scanning left to right. (The module only calls it with
non-empty patterns; for an empty pattern this model returns `s` unchanged.) -/
def pyReplace (s pat rep : String) : String :=
  match pat.data with
  | [] => s
  | p :: ps => String.mk (pyReplaceAux p ps rep.data s.data.length s.data)

/-- Python str.join with a comma separator. -/
def joinComma (l : List String) : String :=
  String.intercalate "," l

/-! ### Column arguments: a Python value that is either a string or a list of
strings, as accepted by create_label for y_col / x_col / legend_name. -/

inductive ColArg where
  | str (v : String)
  | list (v : List String)
deriving DecidableEq, Repr

/-- Modelled from the spec: util.cast_list (slm_lab/lib/util.py, not part of
the given excerpt) — "turn column names ... into a title/axis-label record";
a non-list value is wrapped into a singleton list, a list is kept as is. -/
def cast_list : ColArg → List String
  | .str v => [v]
  | .list v => v

/-- Python truthiness of a column argument: the empty string and the empty
list are falsy. -/
def colTruthy : ColArg → Bool
  | .str v => v ≠ ""
  | .list v => v ≠ []

/-- Python "a or b" on an optional string argument defaulting to `d`:
`None` and the falsy empty string both select the default. -/
def pyOrStr (o : Option String) (d : String) : String :=
  match o with
  | none => d
  | some s => if s = "" then d else s

/-- Python "legend_name or y_col" on an optional column argument. -/
def pyOrCol (o : Option ColArg) (d : ColArg) : ColArg :=
  match o with
  | none => d
  | some c => if colTruthy c then c else d

/-! ### create_label -/

/-- The label dict built by create_label. -/
structure Label where
  y_title : String
  x_title : String
  title : String
  y_col_list : List String
  x_col_list : List String
  legend_name_list : List String
deriving DecidableEq, Repr

/-- viz.create_label: create the label dict for go.Layout with smart
resolution. Optional arguments model the Python keyword arguments defaulting
to None; the Python "x or y" idiom is embedded by pyOrStr / pyOrCol. -/
def create_label (y_col x_col : ColArg)
    (title y_title x_title : Option String) (legend_name : Option ColArg) :
    Label :=
  let legend_name := pyOrCol legend_name y_col
  let y_col_list := cast_list y_col
  let x_col_list := cast_list x_col
  let legend_name_list := cast_list legend_name
  let y_title := pyOrStr y_title (joinComma y_col_list)
  let x_title := pyOrStr x_title (joinComma x_col_list)
  let title := pyOrStr title (y_title ++ " vs " ++ x_title)
  { y_title := y_title
    x_title := x_title
    title := title
    y_col_list := y_col_list
    x_col_list := x_col_list
    legend_name_list := legend_name_list }

/-! ### create_layout -/

/-- The go.Layout value built by create_layout, with the fields the module
sets. The legend placement and the margins are the fixed constants of the
source. -/
structure Layout where
  title : String
  legendX : Int
  legendY : Rat
  yaxisRangemode : String
  yaxisTitle : String
  xaxisType : Option String
  xaxisTitle : String
  width : Nat
  height : Nat
  marginL : Nat
  marginR : Nat
  marginT : Nat
  marginB : Nat
deriving DecidableEq, Repr

/-- viz.create_layout: simplified method to generate a Layout. The
layout_kwargs update is None at every call site in the module, and
Layout.update(None) is a no-op, so it is not a field of the model. -/
def create_layout (title y_title x_title : String)
    (x_type : Option String := none)
    (width : Nat := 500) (height : Nat := 600) : Layout :=
  { title := title
    legendX := 0
    legendY := -(1/4 : Rat)
    yaxisRangemode := "tozero"
    yaxisTitle := y_title
    xaxisType := x_type
    xaxisTitle := x_title
    width := width
    height := height
    marginL := 60, marginR := 60, marginT := 60, marginB := 60 }

/-! ### Palette selection -/

/-- The fixed 8-color qualitative ColorBrewer set behind the colorlover
cl.scales[...]["qual"]["Set2"] family: the k-color Set2 scale is the first
k of these colors, for 3 <= k <= 8. -/
def set2Full : List String :=
  ["rgb(102,194,165)", "rgb(252,141,98)", "rgb(141,160,203)",
   "rgb(231,138,195)", "rgb(166,216,84)", "rgb(255,217,47)",
   "rgb(229,196,148)", "rgb(179,179,179)"]

/-- The colorlover cl.scales[str(k)]["qual"]["Set2"], modelled for the
arguments the module produces (3 <= k <= 8): the k-color prefix of the fixed
Set2 data. -/
def clScalesQualSet2 (k : Nat) : List String :=
  set2Full.take k

/-- The colorlover cl.interp(scl, n) for an integer n: one interpolated color
per index x in range(n), blending the two adjacent scale colors around the
position x * (len(scl) - 1) / n. The HSL color arithmetic of the library is
floating point; the model records the two endpoint colors and the exact
rational position instead of the blended channel values, which no verified
property inspects. The output length and the source scale are faithful. -/
def clInterp (scl : List String) (n : Nat) : List String :=
  (List.range n).map (fun x =>
    let fi := scl.length - 1
    let ci := x * fi / n
    "hsl[" ++ scl.getD ci "" ++ ";" ++ scl.getD (ci + 1) "" ++ ";" ++
      toString (x * fi) ++ "/" ++ toString n ++ "]")

/-- viz.get_palette: the suitable palette for some number of aeb graphs,
where each aeb is a color. -/
def get_palette (aeb_count : Nat) : List String :=
  if aeb_count ≤ 8 then
    clScalesQualSet2 (max 3 aeb_count)
  else
    clInterp set2Full aeb_count

/-- viz.lower_opacity: rgb.replace("rgb(", "rgba(").replace(")", ",{opacity})").
The opacity is received as its Python string rendering (the source splices a
float into an f-string). -/
def lower_opacity (rgb opacity : String) : String :=
  pyReplace (pyReplace rgb "rgb(" "rgba(") ")" ("," ++ opacity ++ ")")

example : lower_opacity "rgb(102,194,165)" "0.2" = "rgba(102,194,165,0.2)" := by
  decide

/-! ### Traces and figures -/

/-- A go.Scatter trace, with the fields the module sets. Fields the source
leaves to plotly defaults are Options set to none. -/
structure Scatter where
  x : List Rat
  y : List Rat
  mode : Option String
  showlegend : Bool
  lineColor : String
  lineWidth : Option Nat
  fill : Option String
  fillcolor : Option String
deriving DecidableEq, Repr

/-- A go.Figure: the trace list plus the layout. -/
structure Figure where
  data : List Scatter
  layout : Layout
deriving DecidableEq, Repr

/-- viz.plot_sr: plot a single series. The source also displays the figure
through plot(fig) (an external rendering effect with no bearing on the
returned value) and returns it. -/
def plot_sr (sr time_sr : List Rat) (title y_title x_title : String) :
    Figure :=
  let x := time_sr
  let color := (get_palette 1).getD 0 ""
  let main_trace : Scatter :=
    { x := x, y := sr, mode := some "lines", showlegend := false
      lineColor := color, lineWidth := some 1
      fill := none, fillcolor := none }
  { data := [main_trace], layout := create_layout title y_title x_title }

/-- viz.plot_mean_sr: plot a list of series using its mean, with an error
band using the std. The mean/std computation is delegated to
util.calc_srs_mean_std (slm_lab/lib/util.py, outside the given excerpt), so
the embedding abstracts it as the function argument `calcMeanStd`; the rest is
the call is arithmetic of the module itself: upper = mean + std, lower =
mean - std, envelope y = upper ++ reverse lower over the doubled time axis,
filled with the lowered-opacity main color. -/
def plot_mean_sr (calcMeanStd : List (List Rat) → List Rat × List Rat)
    (sr_list : List (List Rat)) (time_sr : List Rat)
    (title y_title x_title : String) : Figure :=
  let ms := calcMeanStd sr_list
  let mean_sr := ms.1
  let std_sr := ms.2
  let max_sr := List.zipWith (fun a b => a + b) mean_sr std_sr
  let min_sr := List.zipWith (fun a b => a - b) mean_sr std_sr
  let x := time_sr
  let color := (get_palette 1).getD 0 ""
  let main_trace : Scatter :=
    { x := x, y := mean_sr, mode := some "lines", showlegend := false
      lineColor := color, lineWidth := some 1
      fill := none, fillcolor := none }
  let envelope_trace : Scatter :=
    { x := x ++ x.reverse, y := max_sr ++ min_sr.reverse
      mode := none, showlegend := false
      lineColor := "rgba(0, 0, 0, 0)", lineWidth := none
      fill := some "tozerox", fillcolor := some (lower_opacity color "0.2") }
  { data := [main_trace, envelope_trace]
    layout := create_layout title y_title x_title }

/-! ### save_image: environment, filesystem and the once-per-process warning

The module-level mutable state is the ps.once wrapper orca_warn_once (a
"was the warning already emitted" flag); the observable effects of
save_image are the files it writes and the warnings it logs. Both are
threaded through an explicit state record. Whether the external export
engine fails on a given call is an input of the model (`writeFails`). -/

/-- The per-process state the module can observe or change: files written so
far, the orca_warn_once "already called" flag, and how many warnings were
actually logged. -/
structure VizState where
  files : List String
  warned : Bool
  warnCount : Nat
deriving DecidableEq, Repr

/-- The state at process start: no files, warning not yet emitted. -/
def vizStart : VizState :=
  { files := [], warned := false, warnCount := 0 }

/-- A Python exception escaping a call. -/
inductive PyErr where
  | keyError (key : String)
deriving DecidableEq, Repr

/-- Modelled from the spec: util.smart_path (slm_lab/lib/util.py, outside the
given excerpt) — images are written "to caller-supplied paths"; the model
keeps the caller-supplied path unchanged. -/
def smart_path (filepath : String) : String :=
  filepath

/-- viz.save_image: reads os.environ["PY_ENV"] by unguarded indexed lookup
(KeyError when absent), returns immediately when it equals "test", otherwise
writes the image inside a try block; a failing write is swallowed and
reported through orca_warn_once, which logs only on its first call. -/
def save_image (py_env : Option String) (writeFails : Bool)
    (filepath : String) (st : VizState) : Except PyErr VizState :=
  match py_env with
  | none => .error (.keyError "PY_ENV")
  | some v =>
    if v = "test" then
      .ok st
    else
      if writeFails then
        .ok { st with
              warned := true
              warnCount := st.warnCount + (if st.warned then 0 else 1) }
      else
        .ok { st with files := st.files ++ [smart_path filepath] }

/-- One save_image call of a process run: the environment seen, whether the
export engine fails, and the target path. -/
structure SaveCall where
  py_env : Option String
  writeFails : Bool
  filepath : String
deriving DecidableEq, Repr

/-- A process run: perform the calls in order, threading the state. A call
whose exception propagates leaves the state unchanged. -/
def runSaves (calls : List SaveCall) (st : VizState) : VizState :=
  calls.foldl
    (fun s c =>
      match save_image c.py_env c.writeFails c.filepath s with
      | .ok s' => s'
      | .error _ => s)
    st

/-! ### Specs and metrics handed in by the experiment framework -/

/-- The meta block of a session/trial spec, with the fields the module
reads. The numeric fields (trial index, session index, session count) only
ever appear spliced into f-strings, so they are carried as their string
renderings. -/
structure MetaSpec where
  prepath : String
  trial : String
  session : String
  max_session : String
deriving DecidableEq, Repr

/-- A session or trial spec: the name plus the meta block. -/
structure Spec where
  name : String
  meta : MetaSpec
deriving DecidableEq, Repr

/-- session_metrics["local"]: one series per metric name, plus the two time
axes, as read by plot_session. -/
structure SessionLocalMetrics where
  mean_returns : List Rat
  strengths : List Rat
  sample_efficiencies : List Rat
  training_efficiencies : List Rat
  stabilities : List Rat
  frames : List Rat
  opt_steps : List Rat
deriving DecidableEq, Repr

/-- Dict access local_metrics[name] for the session-level metrics. -/
def SessionLocalMetrics.sr (m : SessionLocalMetrics) : String → List Rat
  | "mean_returns" => m.mean_returns
  | "strengths" => m.strengths
  | "sample_efficiencies" => m.sample_efficiencies
  | "training_efficiencies" => m.training_efficiencies
  | "stabilities" => m.stabilities
  | "frames" => m.frames
  | "opt_steps" => m.opt_steps
  | _ => []

/-- The columns of session_df read by plot_session. -/
structure SessionDf where
  loss : List Rat
  explore_var : List Rat
  entropy : List Rat
  total_t : List Rat
deriving DecidableEq, Repr

/-- Column access session_df[name]. -/
def SessionDf.col (df : SessionDf) : String → List Rat
  | "loss" => df.loss
  | "explore_var" => df.explore_var
  | "entropy" => df.entropy
  | "total_t" => df.total_t
  | _ => []

/-- trial_metrics["local"]: each metric holds the per-session series list
(fed to plot_mean_sr), except consistencies which is a single series; plus
the two time axes. -/
structure TrialLocalMetrics where
  mean_returns : List (List Rat)
  strengths : List (List Rat)
  sample_efficiencies : List (List Rat)
  training_efficiencies : List (List Rat)
  stabilities : List (List Rat)
  consistencies : List Rat
  frames : List Rat
  opt_steps : List Rat
deriving DecidableEq, Repr

/-- Dict access local_metrics[name] for the trial metrics that are lists of
per-session series. -/
def TrialLocalMetrics.srs (m : TrialLocalMetrics) : String → List (List Rat)
  | "mean_returns" => m.mean_returns
  | "strengths" => m.strengths
  | "sample_efficiencies" => m.sample_efficiencies
  | "training_efficiencies" => m.training_efficiencies
  | "stabilities" => m.stabilities
  | _ => []

/-- Dict access local_metrics[name] for the trial metrics that are single
series (consistencies and the time axes). -/
def TrialLocalMetrics.sr (m : TrialLocalMetrics) : String → List Rat
  | "consistencies" => m.consistencies
  | "frames" => m.frames
  | "opt_steps" => m.opt_steps
  | _ => []

/-! ### plot_session and plot_trial

Both entry points loop over a hardcoded (metric-name, time-axis-name) list,
build one figure per pair and hand it to save_image. The embedding returns
the ordered list of (figure, filepath) save requests the loop issues; the
save_image effect itself is the state machine above. -/

/-- The hardcoded metric/time pairs of the first plot_session loop. -/
def session_name_time_pairs : List (String × String) :=
  [("mean_returns", "frames"),
   ("strengths", "frames"),
   ("sample_efficiencies", "frames"),
   ("training_efficiencies", "opt_steps"),
   ("stabilities", "frames")]

/-- The hardcoded column/time pairs of the session_df loop. -/
def session_df_name_time_pairs : List (String × String) :=
  [("loss", "total_t"),
   ("explore_var", "total_t"),
   ("entropy", "total_t")]

/-- viz.plot_session: plot the session graphs — the five local metrics as
single-series charts, then (unless df_mode == "eval") loss, explore_var and
entropy from session_df. In the source df_mode defaults to "eval". -/
def plot_session (session_spec : Spec) (session_metrics : SessionLocalMetrics)
    (session_df : SessionDf) (df_mode : String := "eval") :
    List (Figure × String) :=
  let prepath := session_spec.meta.prepath
  let title := "session graph: " ++ session_spec.name ++ " t" ++
    session_spec.meta.trial ++ " s" ++ session_spec.meta.session
  let base := session_name_time_pairs.map (fun nt =>
    (plot_sr (session_metrics.sr nt.1) (session_metrics.sr nt.2)
       title nt.1 nt.2,
     prepath ++ "_session_graph_" ++ df_mode ++ "_" ++ nt.1 ++ "_vs_" ++
       nt.2 ++ ".png"))
  if df_mode = "eval" then
    base
  else
    base ++ session_df_name_time_pairs.map (fun nt =>
      (plot_sr (session_df.col nt.1) (session_df.col nt.2) title nt.1 nt.2,
       prepath ++ "_session_graph_" ++ df_mode ++ "_" ++ nt.1 ++ "_vs_" ++
         nt.2 ++ ".png"))

/-- The hardcoded metric/time pairs of the plot_trial loop. -/
def trial_name_time_pairs : List (String × String) :=
  [("mean_returns", "frames"),
   ("strengths", "frames"),
   ("sample_efficiencies", "frames"),
   ("training_efficiencies", "opt_steps"),
   ("stabilities", "frames"),
   ("consistencies", "frames")]

/-- viz.plot_trial: plot the trial graphs — every pair as a mean-with-error
band chart except consistencies, which is a single-series chart. The
mean/std computation of plot_mean_sr stays abstracted as calcMeanStd. -/
def plot_trial (trial_spec : Spec) (trial_metrics : TrialLocalMetrics)
    (calcMeanStd : List (List Rat) → List Rat × List Rat) :
    List (Figure × String) :=
  let prepath := trial_spec.meta.prepath
  let title := "trial graph: " ++ trial_spec.name ++ " t" ++
    trial_spec.meta.trial ++ " " ++ trial_spec.meta.max_session ++ " sessions"
  trial_name_time_pairs.map (fun nt =>
    let fig :=
      if nt.1 = "consistencies" then
        plot_sr (trial_metrics.sr nt.1) (trial_metrics.sr nt.2) title nt.1 nt.2
      else
        plot_mean_sr calcMeanStd (trial_metrics.srs nt.1)
          (trial_metrics.sr nt.2) title nt.1 nt.2
    (fig, prepath ++ "_trial_graph_" ++ nt.1 ++ "_vs_" ++ nt.2 ++ ".png"))

/-! ### State-threaded wrappers for the purity claim

The only mutable module state is the VizState record above. Running one of
the pure helpers in a state returns that state untouched; the wrappers make
this an explicit statement rather than a convention of the embedding. -/

/-- create_label run in a module state. -/
def create_labelSt (st : VizState) (y_col x_col : ColArg)
    (title y_title x_title : Option String) (legend_name : Option ColArg) :
    VizState × Label :=
  (st, create_label y_col x_col title y_title x_title legend_name)

/-- get_palette run in a module state. -/
def get_paletteSt (st : VizState) (aeb_count : Nat) :
    VizState × List String :=
  (st, get_palette aeb_count)

/-- lower_opacity run in a module state. -/
def lower_opacitySt (st : VizState) (rgb opacity : String) :
    VizState × String :=
  (st, lower_opacity rgb opacity)

/-! ### Helper lemmas -/

/-- Pointwise, (mean + std) - mean = mean - (mean - std): the two envelope
boundaries sit symmetrically around the mean series. -/
theorem zipWith_add_sub_mirror (m s : List Rat) :
    List.zipWith (fun a b => a - b)
        (List.zipWith (fun a b => a + b) m s) m =
      List.zipWith (fun a b => a - b) m
        (List.zipWith (fun a b => a - b) m s) := by
  induction m generalizing s with
  | nil => simp
  | cons a m ih =>
    cases s with
    | nil => simp
    | cons b s =>
      simp only [List.zipWith_cons_cons, List.cons.injEq]
      exact ⟨by ring, ih s⟩

/-- The warning-count invariant: the count never exceeds the once-flag. -/
def warnInv (st : VizState) : Prop :=
  st.warnCount ≤ if st.warned then 1 else 0

/-- One save_image call preserves the warning-count invariant. -/
theorem save_image_warnInv (c : SaveCall) (st : VizState)
    (h : warnInv st) :
    warnInv (match save_image c.py_env c.writeFails c.filepath st with
             | .ok s' => s'
             | .error _ => st) := by
  unfold warnInv at h ⊢
  unfold save_image
  cases c.py_env with
  | none => exact h
  | some v =>
    by_cases hv : v = "test"
    · simp only [hv, if_pos rfl]
      exact h
    · simp only [if_neg hv]
      by_cases hw : c.writeFails
      · simp only [hw, if_pos rfl]
        cases hst : st.warned <;> simp [hst] at h ⊢ <;> omega
      · simp only [hw]
        simpa using h

/-- The warning-count invariant is preserved across a whole run. -/
theorem runSaves_warnInv (calls : List SaveCall) (st : VizState)
    (h : warnInv st) : warnInv (runSaves calls st) := by
  induction calls generalizing st with
  | nil => exact h
  | cons c rest ih =>
    have step := save_image_warnInv c st h
    unfold runSaves at ih ⊢
    simp only [List.foldl_cons]
    cases hres : save_image c.py_env c.writeFails c.filepath st with
    | ok s' =>
      apply ih
      simpa [hres] using step
    | error e =>
      apply ih
      simpa [hres] using step

/-! ### Claims -/

/-- C1: for a non-negative series count n, get_palette returns the
max(3, n)-color Set2 scale when n <= 8 (so the palette size is max(3, n)),
and for n > 8 it returns exactly n colors obtained by interpolating the
fixed 8-color qualitative Set2 scale. -/
theorem claim_C1_get_palette_size (n : Nat) :
    (n ≤ 8 → (get_palette n).length = max 3 n) ∧
    (8 < n →
      get_palette n = clInterp set2Full n ∧ (get_palette n).length = n) := by
  constructor
  · intro h
    simp only [get_palette, if_pos h, clScalesQualSet2, List.length_take,
      set2Full, List.length_cons, List.length_nil]
    omega
  · intro h
    have hn : ¬ n ≤ 8 := by omega
    refine ⟨by simp only [get_palette, if_neg hn], ?_⟩
    simp [get_palette, if_neg hn, clInterp]

/-- Witness for C1 at the concrete counts 5 and 12. -/
theorem claim_C1_get_palette_size_witness :
    (get_palette 5).length = max 3 5 ∧ (get_palette 12).length = 12 :=
  ⟨(claim_C1_get_palette_size 5).1 (by decide),
   ((claim_C1_get_palette_size 12).2 (by decide)).2⟩

/-- C2: the figure built by plot_mean_sr holds the main mean trace and one
envelope trace whose y data is the upper boundary (mean + std) followed by
the reversed lower boundary (mean - std); pointwise, upper minus mean equals
mean minus lower, and the band is filled with the lowered-opacity version of
the color of the main trace. -/
theorem claim_C2_mean_band_symmetric
    (calcMeanStd : List (List Rat) → List Rat × List Rat)
    (sr_list : List (List Rat)) (time_sr : List Rat)
    (title y_title x_title : String) :
    ∃ main env : Scatter, ∃ upper lower : List Rat,
      (plot_mean_sr calcMeanStd sr_list time_sr title y_title x_title).data
          = [main, env] ∧
      main.y = (calcMeanStd sr_list).1 ∧
      upper = List.zipWith (fun a b => a + b)
        (calcMeanStd sr_list).1 (calcMeanStd sr_list).2 ∧
      lower = List.zipWith (fun a b => a - b)
        (calcMeanStd sr_list).1 (calcMeanStd sr_list).2 ∧
      env.y = upper ++ lower.reverse ∧
      List.zipWith (fun a b => a - b) upper (calcMeanStd sr_list).1 =
        List.zipWith (fun a b => a - b) (calcMeanStd sr_list).1 lower ∧
      env.fillcolor = some (lower_opacity main.lineColor "0.2") := by
  refine ⟨_, _, _, _, rfl, rfl, rfl, rfl, rfl, ?_, rfl⟩
  exact zipWith_add_sub_mirror (calcMeanStd sr_list).1 (calcMeanStd sr_list).2

/-- C3: with PY_ENV = "test", save_image returns at once with the process
state untouched: no file is written, no warning logged, no exception. -/
theorem claim_C3_save_image_test_noop (writeFails : Bool) (filepath : String)
    (st : VizState) :
    save_image (some "test") writeFails filepath st = .ok st :=
  rfl

/-- C4: whenever PY_ENV is present, save_image returns normally no matter
whether the image write fails — the failure is swallowed inside the handler
and never propagates. -/
theorem claim_C4_save_image_no_propagate (v : String) (writeFails : Bool)
    (filepath : String) (st : VizState) :
    ∃ st', save_image (some v) writeFails filepath st = .ok st' := by
  unfold save_image
  by_cases hv : v = "test"
  · exact ⟨st, by simp [hv]⟩
  · by_cases hw : writeFails = true
    · refine ⟨{ st with warned := true, warnCount := st.warnCount + (if st.warned then 0 else 1) }, ?_⟩
      simp [hv, hw]
    · exact ⟨{ st with files := st.files ++ [smart_path filepath] },
        by simp [hv, hw]⟩

/-- C5: across any sequence of save_image calls starting at process start,
at most one warning is ever logged; a failing export finding the once-flag
already set logs nothing, and the first failing export (flag clear, PY_ENV
present and not "test") logs exactly one warning and sets the flag. -/
theorem claim_C5_warn_at_most_once :
    (∀ calls : List SaveCall, (runSaves calls vizStart).warnCount ≤ 1) ∧
    (∀ (v : String) (wf : Bool) (fp : String) (files : List String)
       (n : Nat) (st' : VizState),
      v ≠ "test" →
      save_image (some v) wf fp ⟨files, true, n⟩ = .ok st' →
      st'.warnCount = n) ∧
    (∀ (v fp : String) (files : List String) (n : Nat) (st' : VizState),
      v ≠ "test" →
      save_image (some v) true fp ⟨files, false, n⟩ = .ok st' →
      st'.warnCount = n + 1 ∧ st'.warned = true) := by
  refine ⟨?_, ?_, ?_⟩
  · intro calls
    have h := runSaves_warnInv calls vizStart (by simp [warnInv, vizStart])
    unfold warnInv at h
    cases hw : (runSaves calls vizStart).warned <;> simp [hw] at h <;> omega
  · intro v wf fp files n st' hv h
    unfold save_image at h
    simp only [if_neg hv] at h
    cases wf with
    | true =>
      simp only [if_pos rfl] at h
      cases h
      rfl
    | false =>
      simp only [if_neg (show ¬(false = true) from by decide)] at h
      cases h
      rfl
  · intro v fp files n st' hv h
    unfold save_image at h
    simp only [if_neg hv, if_pos rfl] at h
    cases h
    exact ⟨rfl, rfl⟩

/-- Witness for C5: a run with two failing exports logs one warning, and a
failing export with the flag already set leaves the count at its value. -/
theorem claim_C5_warn_at_most_once_witness :
    (runSaves
      [⟨some "train", true, "a.png"⟩, ⟨some "train", true, "b.png"⟩]
      vizStart).warnCount ≤ 1 ∧
    VizState.warnCount ⟨[], true, 1⟩ = 1 :=
  ⟨claim_C5_warn_at_most_once.1
      [⟨some "train", true, "a.png"⟩, ⟨some "train", true, "b.png"⟩],
   claim_C5_warn_at_most_once.2.1 "train" true "a.png" [] 1
      ⟨[], true, 1⟩ (by decide) rfl⟩

/-- C6: plot_trial iterates over exactly the six hardcoded
(metric, time-axis) pairs in order, builds a mean-with-error-band chart for
every pair except consistencies — which gets a single-series chart — and
issues one save per pair to the path
prepath ++ "_trial_graph_" ++ name ++ "_vs_" ++ time ++ ".png". -/
theorem claim_C6_plot_trial_shape (spec : Spec) (m : TrialLocalMetrics)
    (calcMeanStd : List (List Rat) → List Rat × List Rat) :
    plot_trial spec m calcMeanStd =
      (let title := "trial graph: " ++ spec.name ++ " t" ++
         spec.meta.trial ++ " " ++ spec.meta.max_session ++ " sessions"
       let prepath := spec.meta.prepath
       [(plot_mean_sr calcMeanStd m.mean_returns m.frames title
           "mean_returns" "frames",
         prepath ++ "_trial_graph_" ++ "mean_returns" ++ "_vs_" ++
           "frames" ++ ".png"),
        (plot_mean_sr calcMeanStd m.strengths m.frames title
           "strengths" "frames",
         prepath ++ "_trial_graph_" ++ "strengths" ++ "_vs_" ++
           "frames" ++ ".png"),
        (plot_mean_sr calcMeanStd m.sample_efficiencies m.frames title
           "sample_efficiencies" "frames",
         prepath ++ "_trial_graph_" ++ "sample_efficiencies" ++ "_vs_" ++
           "frames" ++ ".png"),
        (plot_mean_sr calcMeanStd m.training_efficiencies m.opt_steps title
           "training_efficiencies" "opt_steps",
         prepath ++ "_trial_graph_" ++ "training_efficiencies" ++ "_vs_" ++
           "opt_steps" ++ ".png"),
        (plot_mean_sr calcMeanStd m.stabilities m.frames title
           "stabilities" "frames",
         prepath ++ "_trial_graph_" ++ "stabilities" ++ "_vs_" ++
           "frames" ++ ".png"),
        (plot_sr m.consistencies m.frames title "consistencies" "frames",
         prepath ++ "_trial_graph_" ++ "consistencies" ++ "_vs_" ++
           "frames" ++ ".png")]) := by
  rfl

/-- C7: plot_session builds a single-series chart and issues one save for
each of the five hardcoded (metric, time-axis) pairs; with df_mode = "eval"
it stops there, and with any other df_mode it additionally plots loss,
explore_var and entropy against total_t from session_df. -/
theorem claim_C7_plot_session_shape (spec : Spec)
    (m : SessionLocalMetrics) (df : SessionDf) :
    (plot_session spec m df "eval" =
      (let title := "session graph: " ++ spec.name ++ " t" ++
         spec.meta.trial ++ " s" ++ spec.meta.session
       let prepath := spec.meta.prepath
       [(plot_sr m.mean_returns m.frames title "mean_returns" "frames",
         prepath ++ "_session_graph_" ++ "eval" ++ "_" ++ "mean_returns" ++
           "_vs_" ++ "frames" ++ ".png"),
        (plot_sr m.strengths m.frames title "strengths" "frames",
         prepath ++ "_session_graph_" ++ "eval" ++ "_" ++ "strengths" ++
           "_vs_" ++ "frames" ++ ".png"),
        (plot_sr m.sample_efficiencies m.frames title
           "sample_efficiencies" "frames",
         prepath ++ "_session_graph_" ++ "eval" ++ "_" ++
           "sample_efficiencies" ++ "_vs_" ++ "frames" ++ ".png"),
        (plot_sr m.training_efficiencies m.opt_steps title
           "training_efficiencies" "opt_steps",
         prepath ++ "_session_graph_" ++ "eval" ++ "_" ++
           "training_efficiencies" ++ "_vs_" ++ "opt_steps" ++ ".png"),
        (plot_sr m.stabilities m.frames title "stabilities" "frames",
         prepath ++ "_session_graph_" ++ "eval" ++ "_" ++ "stabilities" ++
           "_vs_" ++ "frames" ++ ".png")])) ∧
    (∀ df_mode : String, df_mode ≠ "eval" →
      plot_session spec m df df_mode =
        (let title := "session graph: " ++ spec.name ++ " t" ++
           spec.meta.trial ++ " s" ++ spec.meta.session
         let prepath := spec.meta.prepath
         [(plot_sr m.mean_returns m.frames title "mean_returns" "frames",
           prepath ++ "_session_graph_" ++ df_mode ++ "_" ++
             "mean_returns" ++ "_vs_" ++ "frames" ++ ".png"),
          (plot_sr m.strengths m.frames title "strengths" "frames",
           prepath ++ "_session_graph_" ++ df_mode ++ "_" ++ "strengths" ++
             "_vs_" ++ "frames" ++ ".png"),
          (plot_sr m.sample_efficiencies m.frames title
             "sample_efficiencies" "frames",
           prepath ++ "_session_graph_" ++ df_mode ++ "_" ++
             "sample_efficiencies" ++ "_vs_" ++ "frames" ++ ".png"),
          (plot_sr m.training_efficiencies m.opt_steps title
             "training_efficiencies" "opt_steps",
           prepath ++ "_session_graph_" ++ df_mode ++ "_" ++
             "training_efficiencies" ++ "_vs_" ++ "opt_steps" ++ ".png"),
          (plot_sr m.stabilities m.frames title "stabilities" "frames",
           prepath ++ "_session_graph_" ++ df_mode ++ "_" ++
             "stabilities" ++ "_vs_" ++ "frames" ++ ".png"),
          (plot_sr df.loss df.total_t title "loss" "total_t",
           prepath ++ "_session_graph_" ++ df_mode ++ "_" ++ "loss" ++
             "_vs_" ++ "total_t" ++ ".png"),
          (plot_sr df.explore_var df.total_t title "explore_var" "total_t",
           prepath ++ "_session_graph_" ++ df_mode ++ "_" ++
             "explore_var" ++ "_vs_" ++ "total_t" ++ ".png"),
          (plot_sr df.entropy df.total_t title "entropy" "total_t",
           prepath ++ "_session_graph_" ++ df_mode ++ "_" ++ "entropy" ++
             "_vs_" ++ "total_t" ++ ".png")])) := by
  constructor
  · rfl
  · intro df_mode h
    simp only [plot_session, session_name_time_pairs,
      session_df_name_time_pairs, List.map, if_neg h]
    rfl

/-- Witness for C7 at a concrete spec with df_mode = "train": five metric
saves plus three session_df saves. -/
theorem claim_C7_plot_session_shape_witness :
    (plot_session ⟨"demo", ⟨"data/demo", "0", "1", "4"⟩⟩
      ⟨[1], [1], [1], [1], [1], [0], [0]⟩ ⟨[1], [1], [1], [0]⟩
      "train").length = 8 := by
  rw [(claim_C7_plot_session_shape ⟨"demo", ⟨"data/demo", "0", "1", "4"⟩⟩
    ⟨[1], [1], [1], [1], [1], [0], [0]⟩ ⟨[1], [1], [1], [0]⟩).2
    "train" (by decide)]
  rfl

/-- C8: the pure helpers neither read nor write the module state (the only
mutable state being the once-warned flag inside VizState): run in any state,
each returns that state unchanged, and the value returned is the same in
every state — so two calls with equal arguments in any two runs agree. -/
theorem claim_C8_helpers_pure (st st' : VizState)
    (y_col x_col : ColArg) (title y_title x_title : Option String)
    (legend_name : Option ColArg) (aeb_count : Nat) (rgb opacity : String) :
    (create_labelSt st y_col x_col title y_title x_title legend_name).1 = st ∧
    (create_labelSt st y_col x_col title y_title x_title legend_name).2 =
      (create_labelSt st' y_col x_col title y_title x_title legend_name).2 ∧
    (get_paletteSt st aeb_count).1 = st ∧
    (get_paletteSt st aeb_count).2 = (get_paletteSt st' aeb_count).2 ∧
    (lower_opacitySt st rgb opacity).1 = st ∧
    (lower_opacitySt st rgb opacity).2 = (lower_opacitySt st' rgb opacity).2 :=
  ⟨rfl, rfl, rfl, rfl, rfl, rfl⟩

/-- C9 counterexample: an explicitly supplied empty-string title override is
not used verbatim — the Python idiom "title or default" treats the falsy empty
string like an omitted argument, so the returned title is the default
"a vs b" rather than the supplied "". -/
theorem claim_C9_counterexample :
    (create_label (.str "a") (.str "b") (some "") none none none).title =
      "a vs b" ∧
    (create_label (.str "a") (.str "b") (some "") none none none).title ≠
      "" := by
  decide

/-- C9 (amended): with every override omitted, create_label returns the
comma-joined cast lists as titles, "y_title vs x_title" as the title and the
legend names cast from y_col; a supplied TRUTHY (non-empty) override is used
verbatim in place of the corresponding default, while a falsy override falls
back to the default (see the counterexample). -/
theorem claim_C9_create_label_resolution (y_col x_col : ColArg)
    (t yt xt : String) (ln : ColArg) :
    (create_label y_col x_col none none none none =
      { y_title := joinComma (cast_list y_col)
        x_title := joinComma (cast_list x_col)
        title := joinComma (cast_list y_col) ++ " vs " ++
          joinComma (cast_list x_col)
        y_col_list := cast_list y_col
        x_col_list := cast_list x_col
        legend_name_list := cast_list y_col }) ∧
    (t ≠ "" → ∀ yto xto lno,
      (create_label y_col x_col (some t) yto xto lno).title = t) ∧
    (yt ≠ "" → ∀ tov xto lno,
      (create_label y_col x_col tov (some yt) xto lno).y_title = yt) ∧
    (xt ≠ "" → ∀ tov yto lno,
      (create_label y_col x_col tov yto (some xt) lno).x_title = xt) ∧
    (colTruthy ln = true →
      (create_label y_col x_col none none none (some ln)).legend_name_list =
        cast_list ln) := by
  refine ⟨rfl, ?_, ?_, ?_, ?_⟩
  · intro h yto xto lno
    simp [create_label, pyOrStr, h]
  · intro h tov xto lno
    simp [create_label, pyOrStr, h]
  · intro h tov yto lno
    simp [create_label, pyOrStr, h]
  · intro h
    simp [create_label, pyOrCol, h]

/-- Witness for C9 (amended): concrete truthy overrides are used verbatim. -/
theorem claim_C9_create_label_resolution_witness :
    (create_label (.str "a") (.str "b") (some "T") none none none).title =
      "T" ∧
    (create_label (.str "a") (.str "b") none none none
      (some (.str "L"))).legend_name_list = ["L"] :=
  ⟨(claim_C9_create_label_resolution (.str "a") (.str "b") "T" "y" "x"
      (.str "L")).2.1 (by decide) none none none,
   (claim_C9_create_label_resolution (.str "a") (.str "b") "T" "y" "x"
      (.str "L")).2.2.2.2 (by decide)⟩

/-- C10: save_image reads PY_ENV by unguarded indexed lookup before any
exception handling: with PY_ENV absent every call raises KeyError, whatever
the figure, path, state or export outcome would have been. -/
theorem claim_C10_save_image_key_error (writeFails : Bool)
    (filepath : String) (st : VizState) :
    save_image none writeFails filepath st = .error (.keyError "PY_ENV") :=
  rfl
